import Mathlib

/-!
Shallow embedding of the stlink-rs USB transport layer
(`src/lib/usb_interface.rs`) and the CLI identification decoder
(`src/cli/main.rs`).

The USB subsystem (libusb) is modelled as explicit data: each device
carries the deterministic results of its descriptor/configuration reads
and of open/claim/release, and each transfer-performing operation takes
the results of its bulk transfers as explicit parameters.  Rust panics
(`unwrap` on `None`, debug-mode integer underflow) are a distinguished
outcome, separate from returned `Err` values.
-/

/-- The libusb error variants used by the code (`libusb::Error`). -/
inductive USBError
  | io_error
  | notFound
  | timeout
  | access
  | busy
  | other
deriving DecidableEq

/-- Outcome of a Rust call: a returned `Ok`, a returned `Err`, or a panic. -/
inductive RResult (α : Type)
  | ok (a : α)
  | err (e : USBError)
  | panicked
deriving DecidableEq

/-- `const CMD_LEN: usize = 16` — the USB command packet size. -/
def CMD_LEN : Nat := 16

/-- `const USB_VID: u16 = 0x0483` — the ST vendor id. -/
def USB_VID : Nat := 0x0483

/-- `STLinkInfo` — per-variant metadata: name, PID and the three endpoint
addresses (command-out, response-in, trace-in). -/
structure STLinkInfo where
  version_name : String
  usb_pid : Nat
  ep_out : Nat
  ep_in : Nat
  ep_swv : Nat
deriving DecidableEq

/-- `USB_PID_EP_MAP` — the static catalog from USB PID to `STLinkInfo`,
as a lookup function (`HashMap::get`). -/
def usb_pid_ep_map (pid : Nat) : Option STLinkInfo :=
  if pid = 0x3748 then some ⟨"V2", 0x3748, 0x02, 0x81, 0x83⟩
  else if pid = 0x374b then some ⟨"V2-1", 0x374b, 0x01, 0x81, 0x82⟩
  else if pid = 0x374a then some ⟨"V2-1", 0x374a, 0x01, 0x81, 0x82⟩
  else if pid = 0x3742 then some ⟨"V2-1", 0x3742, 0x01, 0x81, 0x82⟩
  else if pid = 0x374e then some ⟨"V3", 0x374e, 0x01, 0x81, 0x82⟩
  else if pid = 0x374f then some ⟨"V3", 0x374f, 0x01, 0x81, 0x82⟩
  else if pid = 0x3753 then some ⟨"V3", 0x3753, 0x01, 0x81, 0x82⟩
  else none

instance {ε α : Type} [DecidableEq ε] [DecidableEq α] : DecidableEq (Except ε α) := fun a b =>
  match a, b with
  | .error e, .error f => decidable_of_iff (e = f) (by simp)
  | .error _, .ok _ => .isFalse (by simp)
  | .ok _, .error _ => .isFalse (by simp)
  | .ok x, .ok y => decidable_of_iff (x = y) (by simp)

/-- A libusb `Device`, modelled by the deterministic results of the
operations the code performs on it:
`device_descriptor()` yields `(vendor_id, product_id)`;
`active_config_descriptor()` yields the endpoint addresses of the first
interface's first descriptor (`none` when there is no interface or no
descriptor); `open()`, `claim_interface(0)` and `release_interface(0)`
yield unit results. -/
structure USBDevice where
  descriptor : Except USBError (Nat × Nat)
  config_endpoints : Except USBError (Option (List Nat))
  open_result : Except USBError Unit
  claim_result : Except USBError Unit
  release_result : Except USBError Unit
deriving DecidableEq

/-- A libusb `DeviceHandle`; `claimed` records whether `claim_interface(0)`
succeeded on it. -/
structure DeviceHandle where
  claimed : Bool
deriving DecidableEq

/-- `STLinkUSBDevice` — the transport session state: the underlying
device, the optional open handle, and the matched `STLinkInfo`. -/
structure STLinkUSBDevice where
  device : USBDevice
  device_handle : Option DeviceHandle
  info : STLinkInfo
deriving DecidableEq

/-- `fn usb_match(device) -> bool`: VID equals `USB_VID` and the PID is a
key of the catalog; an unreadable descriptor does not match. -/
def usb_match (d : USBDevice) : Bool :=
  match d.descriptor with
  | .ok (vid, pid) => vid == USB_VID && (usb_pid_ep_map pid).isSome
  | .error _ => false

/-- `STLinkUSBDevice::new`: propagates a descriptor read error; indexing
`USB_PID_EP_MAP[&pid]` panics when the PID is not a key. -/
def STLinkUSBDevice.new (d : USBDevice) : RResult STLinkUSBDevice :=
  match d.descriptor with
  | .error e => .err e
  | .ok (_, pid) =>
    match usb_pid_ep_map pid with
    | none => .panicked
    | some info => .ok { device := d, device_handle := none, info := info }

/-- `Iterator::collect::<Result<Vec<_>, Error>>()`: stops at the first
`Err`; a panic inside the iterator propagates. -/
def collect_results {α : Type} : List (RResult α) → RResult (List α)
  | [] => .ok []
  | r :: rs =>
    match r with
    | .err e => .err e
    | .panicked => .panicked
    | .ok a =>
      match collect_results rs with
      | .err e => .err e
      | .panicked => .panicked
      | .ok xs => .ok (a :: xs)

/-- `get_all_plugged_devices`: filter the enumeration by `usb_match`, then
build an `STLinkUSBDevice` for each match, collecting into one `Result`. -/
def get_all_plugged_devices (devices : List USBDevice) : RResult (List STLinkUSBDevice) :=
  collect_results ((devices.filter usb_match).map STLinkUSBDevice.new)

/-- `STLinkUSBDevice::read(size, timeout)`: allocates `vec![0; size]`,
performs the bulk read on `ep_in` if a handle exists but DISCARDS its
result, and unconditionally returns `Ok(buf)`.  `bulk` is the result of
`read_bulk` on the response-in endpoint: the bytes received on success,
or the transfer error.  On success the first bytes of the buffer are
overwritten by the received data; on error (or with no handle) the buffer
keeps its zeros. -/
def STLinkUSBDevice.read (dev : STLinkUSBDevice) (bulk : Except USBError (List Nat))
    (size : Nat) : RResult (List Nat) :=
  match dev.device_handle with
  | none => .ok (List.replicate size 0)
  | some _ =>
    match bulk with
    | .error _ => .ok (List.replicate size 0)
    | .ok data =>
      .ok (data.take size ++ List.replicate (size - (data.take size).length) 0)

/-- `STLinkUSBDevice::close`: with no handle, `map_or(Err(NotFound), …)`
fails; otherwise `release_interface(0)` is tried and `?`-propagated, and
only on its success is the handle dropped. -/
def STLinkUSBDevice.close (dev : STLinkUSBDevice) : RResult Unit × STLinkUSBDevice :=
  match dev.device_handle with
  | none => (.err .notFound, dev)
  | some _ =>
    match dev.device.release_result with
    | .error e => (.err e, dev)
    | .ok _ => (.ok (), { dev with device_handle := none })

/-- The endpoint scan loop of `open`: for each endpoint address, an
if/else-if chain records the first of `ep_out`/`ep_in`/`ep_swv` that the
address equals. -/
def scan_endpoints (info : STLinkInfo) (eps : List Nat) :
    Option Nat × Option Nat × Option Nat :=
  eps.foldl
    (fun acc a =>
      if a = info.ep_out then (some info.ep_out, acc.2.1, acc.2.2)
      else if a = info.ep_in then (acc.1, some info.ep_in, acc.2.2)
      else if a = info.ep_swv then (acc.1, acc.2.1, some info.ep_swv)
      else acc)
    (none, none, none)

/-- `STLinkUSBDevice::open`: opens the device and stores the handle, then
claims interface 0 DISCARDING the result, reads the configuration and
device descriptors, scans the endpoints, and returns `Err(NotFound)` when
any of the three catalog endpoints is absent — without releasing the
interface or clearing the handle.  Ends with a drain `read` (which, as
modelled above, cannot fail).  `drain` is the bulk result fed to that
read. -/
def STLinkUSBDevice.open (dev : STLinkUSBDevice) (drain : Except USBError (List Nat)) :
    RResult Unit × STLinkUSBDevice :=
  match dev.device.open_result with
  | .error e => (.err e, dev)
  | .ok _ =>
    let claimed := match dev.device.claim_result with
      | .ok _ => true
      | .error _ => false
    let dev' : STLinkUSBDevice := { dev with device_handle := some { claimed := claimed } }
    match dev'.device.config_endpoints with
    | .error e => (.err e, dev')
    | .ok iface =>
      match dev'.device.descriptor with
      | .error e => (.err e, dev')
      | .ok (_, pid) =>
        match usb_pid_ep_map pid with
        | none => (.panicked, dev')
        | some info =>
          let eps := iface.getD []
          let scanned := scan_endpoints info eps
          if scanned.1.isNone then (.err .notFound, dev')
          else if scanned.2.1.isNone then (.err .notFound, dev')
          else if scanned.2.2.isNone then (.err .notFound, dev')
          else
            match dev'.read drain 1000 with
            | .err e => (.err e, dev')
            | .panicked => (.panicked, dev')
            | .ok _ => (.ok (), dev')

/-- One bulk transfer attempted by `write`/`read_swv`: an OUT transfer
carries the bytes handed to `write_bulk`; an IN transfer records the
length of the buffer handed to `read_bulk`. -/
inductive Transfer
  | bulkOut (ep : Nat) (data : List Nat)
  | bulkIn (ep : Nat) (bufLen : Nat)
deriving DecidableEq

/-- Results of the up-to-three bulk transfers a single `write` call can
perform: byte counts on success. -/
structure WriteEnv where
  cmd_result : Except USBError Nat
  data_out_result : Except USBError Nat
  data_in_result : Except USBError Nat
deriving DecidableEq

/-- The 16-byte command frame: the command followed by zero padding. -/
def padded_frame (cmd : List Nat) : List Nat :=
  cmd ++ List.replicate (CMD_LEN - cmd.length) 0

/-- `STLinkUSBDevice::write(cmd, write_data, read_data, timeout)`.
The padding loop runs `CMD_LEN - cmd.len()` times; `usize` subtraction
underflows when `cmd.len() > CMD_LEN`, a panic (debug build; a release
build would wrap and push about 2^64 bytes).  Each phase calls
`…map(|dh| …).unwrap()`, which panics when the handle is `None`, then
`?`-propagates a transfer error and turns a short transfer into
`Err(Io)`.  The second component is the list of transfers attempted, in
order. -/
def STLinkUSBDevice.write (dev : STLinkUSBDevice) (env : WriteEnv)
    (cmd write_data : List Nat) (read_data_len : Nat) :
    RResult Unit × List Transfer :=
  if CMD_LEN < cmd.length then (.panicked, [])
  else
    match dev.device_handle with
    | none => (.panicked, [])
    | some _ =>
      let t1 := Transfer.bulkOut dev.info.ep_out (padded_frame cmd)
      match env.cmd_result with
      | .error e => (.err e, [t1])
      | .ok written =>
        if written ≠ CMD_LEN then (.err .io_error, [t1])
        else if 0 < write_data.length then
          let t2 := Transfer.bulkOut dev.info.ep_out write_data
          match env.data_out_result with
          | .error e => (.err e, [t1, t2])
          | .ok w2 =>
            if w2 ≠ write_data.length then (.err .io_error, [t1, t2])
            else if 0 < read_data_len then
              let t3 := Transfer.bulkIn dev.info.ep_in read_data_len
              match env.data_in_result with
              | .error e => (.err e, [t1, t2, t3])
              | .ok r3 =>
                if r3 ≠ read_data_len then (.err .io_error, [t1, t2, t3])
                else (.ok (), [t1, t2, t3])
            else (.ok (), [t1, t2])
        else if 0 < read_data_len then
          let t3 := Transfer.bulkIn dev.info.ep_in read_data_len
          match env.data_in_result with
          | .error e => (.err e, [t1, t3])
          | .ok r3 =>
            if r3 ≠ read_data_len then (.err .io_error, [t1, t3])
            else (.ok (), [t1, t3])
        else (.ok (), [t1])

/-- `STLinkUSBDevice::read_swv(size, timeout)`:
`Vec::with_capacity(size).as_mut_slice()` is EMPTY (length 0), so the
bulk read can receive at most 0 bytes; `unwrap()` panics with no handle;
a transfer error is `?`-propagated; then `read_bytes != size` yields
`Err(Io)`, else the (empty) buffer is returned. -/
def STLinkUSBDevice.read_swv (dev : STLinkUSBDevice) (bulk : Except USBError (List Nat))
    (size : Nat) : RResult (List Nat) :=
  match dev.device_handle with
  | none => .panicked
  | some _ =>
    match bulk with
    | .error e => .err e
    | .ok data =>
      if min data.length 0 ≠ size then .err .io_error
      else .ok (data.take 0)

/-- The four fields of `parse_target_id`, in tuple order:
`(revision, part-number, designer, reserved)`. -/
structure TargetId where
  revision : Nat
  part_no : Nat
  designer : Nat
  reserved : Nat
deriving DecidableEq

/-- `fn parse_target_id(value: u32) -> (u8, u16, u16, u8)`:
`((value >> 28) as u8, (value >> 12) as u16, ((value >> 1) & 0x07FF) as u16,
(value & 0x01) as u8)`; the `as` casts truncate. -/
def parse_target_id (value : Nat) : TargetId :=
  { revision := value / 2 ^ 28 % 2 ^ 8
    part_no := value / 2 ^ 12 % 2 ^ 16
    designer := value / 2 % 2 ^ 11
    reserved := value % 2 }

/-- The IDCODE protocol classification printed by `show_info_of_device`:
field 0 equal to `0x4` is "JTAG-DP", `0x3` is "SW-DP", anything else is
"Unknown Protocol". -/
def classify_protocol (sel : Nat) : String :=
  if sel = 0x4 then "JTAG-DP"
  else if sel = 0x3 then "SW-DP"
  else "Unknown Protocol"

/-- The IDCODE validation of `show_info_of_device` line 122: the check
passes (no `Err(Custom(…))`) iff the reserved bit is 1, the protocol
field is `0x3` or `0x4`, and the part number is `0xBA00` or `0xBA02`. -/
def idcode_expected (t : TargetId) : Bool :=
  t.reserved == 1 && (t.revision == 0x3 || t.revision == 0x4)
    && (t.part_no == 0xBA00 || t.part_no == 0xBA02)

/-- A well-behaved catalogued device (an ST-Link V2-1, PID `0x374b`) whose
configuration exposes exactly the three catalog endpoints. -/
def demo_usb_device : USBDevice :=
  { descriptor := .ok (0x0483, 0x374b)
    config_endpoints := .ok (some [0x01, 0x81, 0x82])
    open_result := .ok ()
    claim_result := .ok ()
    release_result := .ok () }

/-- The catalog entry for PID `0x374b`. -/
def demo_info : STLinkInfo := ⟨"V2-1", 0x374b, 0x01, 0x81, 0x82⟩

/-- `demo_usb_device` after a successful `open`: handle present, interface
claimed. -/
def demo_open_dev : STLinkUSBDevice :=
  { device := demo_usb_device, device_handle := some ⟨true⟩, info := demo_info }

/-- A transfer environment in which the command-phase bulk write reports
all 16 bytes written and the optional phases report 0 bytes. -/
def demo_write_env : WriteEnv := ⟨.ok 16, .ok 0, .ok 0⟩

/-! ## Theorems -/

/-- C8 (counterexample): decoding the ID register value `0x3BA02477`
yields protocol selector field `0x3`, which `show_info_of_device`
classifies as "SW-DP" — not `0x4` / "JTAG-DP" as the claim states. -/
theorem idcode_3BA02477_decodes_to_3 :
    (parse_target_id 0x3BA02477).revision = 0x3 ∧
    classify_protocol (parse_target_id 0x3BA02477).revision = "SW-DP" ∧
    ¬ ((parse_target_id 0x3BA02477).revision = 0x4 ∧
       classify_protocol (parse_target_id 0x3BA02477).revision = "JTAG-DP") := by
  decide

/-- C8 (amended): decoding `0x3BA02477` yields protocol selector `0x3`,
classified "SW-DP" (and that value passes the IDCODE validation); and for
every 32-bit ID value whose reserved bit (bit 0) is 0, the validation
fails regardless of the revision/protocol, part-number and designer
fields. -/
theorem idcode_reserved_zero_fails (value : Nat) (hv : value < 2 ^ 32)
    (hr : value % 2 = 0) :
    idcode_expected (parse_target_id value) = false ∧
    (parse_target_id 0x3BA02477).revision = 0x3 ∧
    classify_protocol (parse_target_id 0x3BA02477).revision = "SW-DP" ∧
    idcode_expected (parse_target_id 0x3BA02477) = true := by
  refine ⟨?_, by decide, by decide, by decide⟩
  simp [idcode_expected, parse_target_id, hr]

/-- Witness for C8's amended theorem at `value = 0x3BA02476` (reserved
bit 0, all other fields as in the known-good IDCODE). -/
theorem idcode_reserved_zero_fails_witness :
    idcode_expected (parse_target_id 0x3BA02476) = false :=
  (idcode_reserved_zero_fails 0x3BA02476 (by decide) (by decide)).1

/-- C9: packing 4-bit revision, 16-bit part-number, 11-bit designer and
reserved bit 1 into bits [31:28], [27:12], [11:1] and [0] and decoding
with `parse_target_id` returns the original fields. -/
theorem parse_target_id_roundtrip (rev part designer : Nat)
    (hrev : rev < 2 ^ 4) (hpart : part < 2 ^ 16) (hdes : designer < 2 ^ 11) :
    parse_target_id (rev * 2 ^ 28 + part * 2 ^ 12 + designer * 2 + 1) =
      { revision := rev, part_no := part, designer := designer, reserved := 1 } := by
  simp only [parse_target_id, TargetId.mk.injEq]
  refine ⟨?_, ?_, ?_, ?_⟩ <;> omega

/-- Witness for C9 at the fields of `0x3BA02477`. -/
theorem parse_target_id_roundtrip_witness :
    parse_target_id (0x3 * 2 ^ 28 + 0xBA02 * 2 ^ 12 + 0x23B * 2 + 1) =
      { revision := 0x3, part_no := 0xBA02, designer := 0x23B, reserved := 1 } :=
  parse_target_id_roundtrip 0x3 0xBA02 0x23B (by decide) (by decide) (by decide)

/-- C1 (counterexample): on an open session, `write` with a 17-byte
command does not return an `Err` at all — it panics (usize underflow in
the padding loop bound `CMD_LEN - cmd.len()`), with no transfer
attempted. -/
theorem write_overlong_not_an_error :
    demo_open_dev.write demo_write_env (List.replicate 17 0xAA) [] 0 = (.panicked, []) ∧
    ¬ ∃ e, (demo_open_dev.write demo_write_env (List.replicate 17 0xAA) [] 0).1
        = RResult.err e := by
  refine ⟨by decide, ?_⟩
  rintro ⟨e, h⟩
  rw [show (demo_open_dev.write demo_write_env (List.replicate 17 0xAA) [] 0).1
      = RResult.panicked from rfl] at h
  exact RResult.noConfusion h

/-- C1 (amended): for every command buffer longer than 16 bytes, `write`
panics (debug-build unsigned underflow while computing the zero padding)
before any transmission is attempted on the command-out endpoint: the
transfer trace is empty. -/
theorem write_overlong_panicks_before_transfer (dev : STLinkUSBDevice) (env : WriteEnv)
    (cmd write_data : List Nat) (read_data_len : Nat) (h : 16 < cmd.length) :
    dev.write env cmd write_data read_data_len = (.panicked, []) := by
  unfold STLinkUSBDevice.write
  rw [if_pos (by simpa [CMD_LEN] using h)]

/-- Witness for C1's amended theorem: a 17-byte command on the demo
session. -/
theorem write_overlong_panicks_before_transfer_witness :
    demo_open_dev.write demo_write_env (List.replicate 17 0xAA) [0xBB] 2 = (.panicked, []) :=
  write_overlong_panicks_before_transfer demo_open_dev demo_write_env
    (List.replicate 17 0xAA) [0xBB] 2 (by decide)

/-- C2 (code bug): on an open session, a bulk read that times out is not
surfaced: `read` discards the transfer result and returns `Ok` with the
zero-filled buffer of the requested size instead of `Err(Timeout)` (and
so never returns the distinguished timeout error at all). -/
theorem read_timeout_returns_ok_zeros :
    demo_open_dev.read (.error .timeout) 4 = .ok [0, 0, 0, 0] ∧
    demo_open_dev.read (.error .timeout) 4 ≠ .err .timeout := by
  decide

/-- `read` can never return an `Err`, whatever the bulk transfer did —
so the `Err(Timeout)` arm that `flush_rx` matches on is unreachable. -/
theorem read_never_errs (dev : STLinkUSBDevice) (bulk : Except USBError (List Nat))
    (size : Nat) : ∀ e, dev.read bulk size ≠ RResult.err e := by
  intro e
  unfold STLinkUSBDevice.read
  cases dev.device_handle with
  | none => simp
  | some h => cases bulk <;> simp

/-- Witness for `read_never_errs`. -/
theorem read_never_errs_witness :
    demo_open_dev.read (.error .busy) 2 ≠ RResult.err .busy :=
  read_never_errs demo_open_dev (.error .busy) 2 .busy

/-- C3 (code bug): `close` on the demo session succeeds, after which
`read` silently succeeds with a zero-filled buffer (no transfer possible,
no error), and `write` panics (`unwrap` on `None`) instead of returning
an error. -/
theorem transfer_after_close :
    (demo_open_dev.close).1 = .ok () ∧
    ((demo_open_dev.close).2).read (.error .timeout) 4 = .ok [0, 0, 0, 0] ∧
    ((demo_open_dev.close).2).write demo_write_env [0xF2] [] 0 = (.panicked, []) := by
  decide

/-- A catalogued V2-1 device whose configuration lacks the trace-in
endpoint `0x82`. -/
def c4_usb_device : USBDevice :=
  { descriptor := .ok (0x0483, 0x374b)
    config_endpoints := .ok (some [0x01, 0x81])
    open_result := .ok ()
    claim_result := .ok ()
    release_result := .ok () }

/-- The same device as an unopened session. -/
def c4_dev : STLinkUSBDevice :=
  { device := c4_usb_device, device_handle := none, info := demo_info }

/-- C4 (code bug): `open` on a device missing the catalog-declared
trace-in endpoint does fail with `Err(NotFound)`, but leaves the session
holding a device handle with interface 0 still claimed — the claimed
interface is not released and the session state is not cleared. -/
theorem open_missing_endpoint_leaks_claim :
    (c4_dev.open (.error .timeout)).1 = .err .notFound ∧
    (c4_dev.open (.error .timeout)).2.device_handle = some { claimed := true } := by
  decide

/-- C10: on an open session, for every requested size > 0, `read_swv`
hands the bulk transfer a zero-length buffer (the `Vec` has capacity
`size` but length 0), so when the transfer completes it has received 0
bytes, `0 ≠ size` makes `read_swv` return `Err(Io)`, and in no case does
`read_swv` return trace bytes. -/
theorem read_swv_never_returns_data (dev : STLinkUSBDevice) (h : DeviceHandle)
    (bulk : Except USBError (List Nat)) (size : Nat)
    (hh : dev.device_handle = some h) (hs : 0 < size) :
    (∀ data, bulk = .ok data → dev.read_swv bulk size = .err .io_error) ∧
    ∀ bs, dev.read_swv bulk size ≠ .ok bs := by
  unfold STLinkUSBDevice.read_swv
  rw [hh]
  constructor
  · intro data hd
    rw [hd]
    simp only [Nat.min_zero]
    rw [if_pos (by omega)]
  · intro bs
    cases bulk with
    | error e => simp
    | ok data =>
      simp only [Nat.min_zero]
      rw [if_pos (by omega)]
      simp

/-- Witness for C10: a successful 3-byte bulk arrival against a 2-byte
request still yields `Err(Io)`. -/
theorem read_swv_never_returns_data_witness :
    demo_open_dev.read_swv (.ok [1, 2, 3]) 2 = .err .io_error :=
  (read_swv_never_returns_data demo_open_dev ⟨true⟩ (.ok [1, 2, 3]) 2 rfl
    (by decide)).1 [1, 2, 3] rfl

/-- A device whose descriptor cannot be read never matches. -/
theorem usb_match_of_descriptor_error (d : USBDevice) (e : USBError)
    (h : d.descriptor = .error e) : usb_match d = false := by
  unfold usb_match
  rw [h]

/-- Every matched device yields a candidate: `new` succeeds on it. -/
theorem new_ok_of_usb_match (d : USBDevice) (h : usb_match d = true) :
    ∃ c, STLinkUSBDevice.new d = .ok c := by
  unfold usb_match at h
  unfold STLinkUSBDevice.new
  cases hd : d.descriptor with
  | error e => rw [hd] at h; simp at h
  | ok p =>
    obtain ⟨vid, pid⟩ := p
    rw [hd] at h
    simp only [Bool.and_eq_true, beq_iff_eq, Option.isSome_iff_exists] at h
    obtain ⟨-, info, hm⟩ := h
    exact ⟨⟨d, none, info⟩, by simp [hm]⟩

/-- Discovery never fails: every filtered device is catalogued, so each
`new` returns `Ok` and the collect returns `Ok`. -/
theorem get_all_plugged_devices_ok (devices : List USBDevice) :
    ∃ cs, get_all_plugged_devices devices = .ok cs := by
  unfold get_all_plugged_devices
  induction devices with
  | nil => exact ⟨[], rfl⟩
  | cons d ds ih =>
    obtain ⟨cs, hcs⟩ := ih
    by_cases hm : usb_match d
    · obtain ⟨c, hc⟩ := new_ok_of_usb_match d hm
      refine ⟨c :: cs, ?_⟩
      simp [List.filter_cons, hm, collect_results, hc, hcs]
    · refine ⟨cs, ?_⟩
      simp only [List.filter_cons, Bool.not_eq_true] at *
      rw [if_neg (by simp [hm])]
      exact hcs

/-- C5: a device whose descriptor cannot be read is skipped by discovery:
enumerations with and without it produce the same result, and that result
is `Ok` with the candidates of the remaining matching devices (one bad
device never aborts discovery of the others). -/
theorem discovery_skips_unreadable (pre post : List USBDevice) (bad : USBDevice)
    (e : USBError) (hbad : bad.descriptor = .error e) :
    get_all_plugged_devices (pre ++ bad :: post) = get_all_plugged_devices (pre ++ post) ∧
    ∃ cs, get_all_plugged_devices (pre ++ post) = .ok cs := by
  refine ⟨?_, get_all_plugged_devices_ok _⟩
  unfold get_all_plugged_devices
  rw [List.filter_append, List.filter_append,
    show (bad :: post).filter usb_match = post.filter usb_match by
      simp [List.filter_cons, usb_match_of_descriptor_error bad e hbad]]

/-- An enumeration entry whose device descriptor read fails. -/
def bad_usb_device : USBDevice :=
  { descriptor := .error .io_error
    config_endpoints := .ok none
    open_result := .ok ()
    claim_result := .ok ()
    release_result := .ok () }

/-- Witness for C5: the unreadable device amid one good device. -/
theorem discovery_skips_unreadable_witness :
    get_all_plugged_devices [demo_usb_device, bad_usb_device] =
      get_all_plugged_devices [demo_usb_device] ∧
    ∃ cs, get_all_plugged_devices [demo_usb_device] = .ok cs :=
  discovery_skips_unreadable [demo_usb_device] [] bad_usb_device .io_error rfl

/-- C6: in each of the three phases of `write`, a transfer whose actual
length differs from the expected length (16 for the command frame, the
data-out length, the data-in length) makes `write` return `Err(Io)` at
once, attempting no later transfer. -/
theorem write_short_transfer_io (dev : STLinkUSBDevice) (h : DeviceHandle) (env : WriteEnv)
    (cmd write_data : List Nat) (read_data_len : Nat)
    (hh : dev.device_handle = some h) (hc : cmd.length ≤ 16) :
    (∀ n, env.cmd_result = .ok n → n ≠ 16 →
      dev.write env cmd write_data read_data_len =
        (.err .io_error, [.bulkOut dev.info.ep_out (padded_frame cmd)])) ∧
    (∀ m, env.cmd_result = .ok 16 → 0 < write_data.length →
      env.data_out_result = .ok m → m ≠ write_data.length →
      dev.write env cmd write_data read_data_len =
        (.err .io_error, [.bulkOut dev.info.ep_out (padded_frame cmd),
          .bulkOut dev.info.ep_out write_data])) ∧
    (∀ k, env.cmd_result = .ok 16 →
      (0 < write_data.length → env.data_out_result = .ok write_data.length) →
      0 < read_data_len → env.data_in_result = .ok k → k ≠ read_data_len →
      dev.write env cmd write_data read_data_len =
        (.err .io_error,
          .bulkOut dev.info.ep_out (padded_frame cmd) ::
            ((if 0 < write_data.length then [.bulkOut dev.info.ep_out write_data] else []) ++
              [.bulkIn dev.info.ep_in read_data_len]))) := by
  have hlt : ¬ CMD_LEN < cmd.length := by simp only [CMD_LEN]; omega
  refine ⟨?_, ?_, ?_⟩
  · intro n h1 h2
    unfold STLinkUSBDevice.write
    rw [if_neg hlt, hh, h1]
    simp [CMD_LEN, h2]
  · intro m h1 hw h2 hm
    unfold STLinkUSBDevice.write
    rw [if_neg hlt, hh, h1]
    simp [CMD_LEN, hw, h2, hm]
  · intro k h1 hwimp hr h3 hk
    unfold STLinkUSBDevice.write
    rw [if_neg hlt, hh, h1]
    by_cases hw : 0 < write_data.length
    · simp [CMD_LEN, hw, hwimp hw, hr, h3, hk]
    · simp [CMD_LEN, hw, hr, h3, hk]

/-- Witness for C6: command phase reports 10 of 16 bytes written. -/
theorem write_short_transfer_io_witness :
    demo_open_dev.write ⟨.ok 10, .ok 0, .ok 0⟩ [0xF2] [] 0 =
      (.err .io_error, [.bulkOut demo_open_dev.info.ep_out (padded_frame [0xF2])]) :=
  (write_short_transfer_io demo_open_dev ⟨true⟩ ⟨.ok 10, .ok 0, .ok 0⟩ [0xF2] [] 0 rfl
    (by decide)).1 10 rfl (by decide)

/-- C7: for every command of length at most 16 on an open session, the
command-phase transfer carries the frame `cmd ++ zero padding`: exactly 16
bytes whose first `cmd.length` bytes are the command and whose remaining
bytes are zero. -/
theorem write_transmits_padded_frame (dev : STLinkUSBDevice) (h : DeviceHandle)
    (env : WriteEnv) (cmd write_data : List Nat) (read_data_len : Nat)
    (hh : dev.device_handle = some h) (hc : cmd.length ≤ 16) :
    (∃ rest, (dev.write env cmd write_data read_data_len).2 =
      Transfer.bulkOut dev.info.ep_out (padded_frame cmd) :: rest) ∧
    (padded_frame cmd).length = 16 ∧
    (padded_frame cmd).take cmd.length = cmd ∧
    (padded_frame cmd).drop cmd.length = List.replicate (16 - cmd.length) 0 := by
  have hlt : ¬ CMD_LEN < cmd.length := by simp only [CMD_LEN]; omega
  refine ⟨?_, ?_, List.take_left cmd _, List.drop_left cmd _⟩
  · unfold STLinkUSBDevice.write
    rw [if_neg hlt, hh]
    repeat' split
    all_goals first
      | exact ⟨_, rfl⟩
      | simp_all
  · simp only [padded_frame, CMD_LEN, List.length_append, List.length_replicate]
    omega

/-- Witness for C7: a 1-byte command padded to the 16-byte frame. -/
theorem write_transmits_padded_frame_witness :
    (∃ rest, (demo_open_dev.write demo_write_env [0xF2] [] 0).2 =
      Transfer.bulkOut demo_open_dev.info.ep_out (padded_frame [0xF2]) :: rest) ∧
    (padded_frame [0xF2]).length = 16 ∧
    (padded_frame [0xF2]).take 1 = [0xF2] ∧
    (padded_frame [0xF2]).drop 1 = List.replicate 15 0 :=
  write_transmits_padded_frame demo_open_dev ⟨true⟩ demo_write_env [0xF2] [] 0 rfl
    (by decide)
